import Mathlib

/-!
Shallow embedding of the `StreamableHttpFetchTransport` class
(src/transport/streamable-http-fetch.ts): the MCP Streamable-HTTP transport
binding built on a fetch-style Request/Response interface.

The transport's mutable instance fields become a `Transport` record that every
operation threads explicitly.  Effects on external sinks — enqueueing an SSE
frame into a `ReadableStreamDefaultController`, closing a controller,
dispatching a message to the `onmessage` handler, invoking the `onclose` /
`onerror` callbacks — are recorded in an append-only `trace` field, since the
controllers themselves are opaque host objects.  `crypto.randomUUID()` and the
injected `sessionIdGenerator` are modelled with a fresh-name counter carried in
the state.  Promises created by `collectJsonResponses` are modelled by future
indexes: registration associates each request id with a fresh index, `send`
resolving a future appends `(index, message)` to a resolution log, and the
`Promise.all` at the end of `collectJsonResponses` is the pure function
`collectFutures` reading that log.
-/

/-- A JSON-RPC request id: a string or a number. -/
inductive RequestId
  | str (s : String)
  | num (n : Int)
deriving DecidableEq

/-- A JSON-RPC message, as classified by the SDK guards `isJSONRPCRequest`,
`isJSONRPCResponse`, `isJSONRPCError`; payloads irrelevant to routing are
abstracted to strings. -/
inductive JSONRPCMessage
  | request (id : RequestId) (method : String)
  | notification (method : String)
  | response (id : RequestId) (result : String)
  | error (id : RequestId) (code : Int) (message : String)
deriving DecidableEq

def isJSONRPCRequest : JSONRPCMessage → Bool
  | .request _ _ => true
  | _ => false

def isJSONRPCResponse : JSONRPCMessage → Bool
  | .response _ _ => true
  | _ => false

def isJSONRPCError : JSONRPCMessage → Bool
  | .error _ _ _ => true
  | _ => false

def isInitializeRequest : JSONRPCMessage → Bool
  | .request _ m => m = "initialize"
  | _ => false

/-- The `id` field of a message (`undefined` for notifications). -/
def messageId : JSONRPCMessage → Option RequestId
  | .request i _ => some i
  | .notification _ => none
  | .response i _ => some i
  | .error i _ _ => some i

section AList
variable {α : Type} {β : Type} [DecidableEq α]

/-- Lookup in an association list (model of `Map.get`). -/
def alookup (k : α) : List (α × β) → Option β
  | [] => none
  | p :: rest => if p.1 = k then some p.2 else alookup k rest

/-- Remove every entry with the given key (model of `Map.delete`). -/
def aerase (k : α) : List (α × β) → List (α × β)
  | [] => []
  | p :: rest => if p.1 = k then aerase k rest else p :: aerase k rest

/-- Insert or overwrite a binding (model of `Map.set`). -/
def ainsert (k : α) (v : β) (m : List (α × β)) : List (α × β) :=
  (k, v) :: aerase k m

/-- Add an element to a duplicate-free list (model of `Set.add`). -/
def sadd (x : α) (l : List α) : List α :=
  if x ∈ l then l else l ++ [x]

/-- Remove an element (model of `Set.delete`). -/
def sdelete (x : α) : List α → List α
  | [] => []
  | y :: rest => if y = x then sdelete x rest else y :: sdelete x rest

end AList

/-- Observable effects on external sinks and callbacks. -/
inductive Event
  | sseWrite (streamId : String) (message : JSONRPCMessage)
  | ctrlClose (streamId : String)
  | dispatch (message : JSONRPCMessage)
  | oncloseCall
  | onerrorCall
deriving DecidableEq

/-- The `StreamState` record: stream id and pending request ids; the
controller is externalized into trace events keyed by the stream id. -/
structure StreamState where
  id : String
  pendingIds : List RequestId
deriving DecidableEq

/-- The mutable instance state of `StreamableHttpFetchTransport`. -/
structure Transport where
  sessionIdGenerator : Option (Nat → String)
  enableJsonResponse : Bool
  allowedHosts : Option (List String)
  allowedOrigins : Option (List String)
  enableDnsRebindingProtection : Bool
  initialized : Bool
  sessionId : Option String
  standaloneStream : Option StreamState
  streams : List (String × StreamState)
  requestToStream : List (RequestId × String)
  pendingJsonResponses : List (RequestId × Nat)
  futureResolutions : List (Nat × JSONRPCMessage)
  nextFuture : Nat
  fresh : Nat
  trace : List Event

/-- Constructor options (`StreamableHttpFetchTransportOptions`). -/
structure TransportOptions where
  sessionIdGenerator : Option (Nat → String) := none
  enableJsonResponse : Option Bool := none
  allowedHosts : Option (List String) := none
  allowedOrigins : Option (List String) := none
  enableDnsRebindingProtection : Option Bool := none

/-- The class constructor. -/
def mkTransport (o : TransportOptions) : Transport where
  sessionIdGenerator := o.sessionIdGenerator
  enableJsonResponse := o.enableJsonResponse.getD false
  allowedHosts := o.allowedHosts
  allowedOrigins := o.allowedOrigins
  enableDnsRebindingProtection := o.enableDnsRebindingProtection.getD false
  initialized := false
  sessionId := none
  standaloneStream := none
  streams := []
  requestToStream := []
  pendingJsonResponses := []
  futureResolutions := []
  nextFuture := 0
  fresh := 0
  trace := []

/-- Model of `crypto.randomUUID()`, drawn from the fresh-name counter. -/
def freshUuid (n : Nat) : String := "uuid-" ++ toString n

/-- Model of `writeSseEvent`: enqueue one SSE frame into the controller of
the given stream. -/
def Transport.writeSseEvent (t : Transport) (streamId : String) (m : JSONRPCMessage) : Transport :=
  { t with trace := t.trace ++ [Event.sseWrite streamId m] }

/-- Errors thrown by `send`. -/
inductive SendErr
  | responseWithoutRequest
  | noConnection (id : RequestId)
deriving DecidableEq

/-- The `send(message, options)` method.  The source's local `requestId`,
`newPending` and intermediate-state bindings are inlined. -/
def Transport.send (t : Transport) (message : JSONRPCMessage)
    (relatedRequestId : Option RequestId) : Except SendErr Transport :=
  match (if isJSONRPCResponse message || isJSONRPCError message then messageId message
         else relatedRequestId) with
  | none =>
      if isJSONRPCResponse message || isJSONRPCError message then
        Except.error SendErr.responseWithoutRequest
      else
        match t.standaloneStream with
        | some s => Except.ok (t.writeSseEvent s.id message)
        | none => Except.ok t
  | some rid =>
      if t.enableJsonResponse then
        match alookup rid t.pendingJsonResponses with
        | some idx =>
            Except.ok { t with
              futureResolutions := t.futureResolutions ++ [(idx, message)],
              pendingJsonResponses := aerase rid t.pendingJsonResponses }
        | none => Except.ok t
      else
        match alookup rid t.requestToStream with
        | none => Except.error (SendErr.noConnection rid)
        | some streamId =>
            match alookup streamId t.streams with
            | none => Except.error (SendErr.noConnection rid)
            | some stream =>
                if isJSONRPCResponse message || isJSONRPCError message then
                  if sdelete rid stream.pendingIds = [] then
                    Except.ok { t with
                      requestToStream := aerase rid t.requestToStream,
                      streams := aerase stream.id t.streams,
                      trace := (t.trace ++ [Event.sseWrite streamId message]) ++
                        [Event.ctrlClose stream.id] }
                  else
                    Except.ok { t with
                      requestToStream := aerase rid t.requestToStream,
                      streams := ainsert stream.id
                        { stream with pendingIds := sdelete rid stream.pendingIds } t.streams,
                      trace := t.trace ++ [Event.sseWrite streamId message] }
                else
                  Except.ok (t.writeSseEvent streamId message)

/-- The `close()` method: close the controller of every stream in the stream
map (swallowing close-time errors), clear all maps and the standalone
pointer, and invoke `onclose`. -/
def Transport.close (t : Transport) : Transport :=
  { t with
    trace := t.trace ++ t.streams.map (fun p => Event.ctrlClose p.2.id) ++ [Event.oncloseCall],
    streams := [],
    requestToStream := [],
    pendingJsonResponses := [],
    standaloneStream := none }

/-- The `cancel` callback of the standalone GET stream. -/
def Transport.cancelStandaloneStream (t : Transport) : Transport :=
  { t with standaloneStream := none }

/-- The `cancel` callback of a request-bound stream: it drops the stream from
the map and unregisters the ids remaining in the (aliased, mutable) pending
set, which is empty whenever the stream was already fully resolved. -/
def Transport.cancelRequestStream (t : Transport) (streamId : String) : Transport :=
  let pend := match alookup streamId t.streams with
    | some s => s.pendingIds
    | none => []
  { t with
    streams := aerase streamId t.streams,
    requestToStream := pend.foldl (fun m i => aerase i m) t.requestToStream }

/-- Body of an HTTP response produced by the transport. -/
inductive JsonBody
  | single (m : JSONRPCMessage)
  | array (ms : List JSONRPCMessage)
deriving DecidableEq

inductive ResponseBody
  | empty
  | rpcError (code : Int) (message : String)
  | json (b : JsonBody)
  | sseStream (streamId : String)
  | pendingJson (start n : Nat)
deriving DecidableEq

structure HttpResponse where
  status : Nat
  headers : List (String × String)
  body : ResponseBody
deriving DecidableEq

/-- The `jsonRpcError` helper: an error envelope with `id: null`. -/
def jsonRpcError (status : Nat) (code : Int) (message : String) : HttpResponse :=
  { status := status,
    headers := [("Content-Type", "application/json")],
    body := ResponseBody.rpcError code message }

/-- The `handleUnsupportedRequest` helper. -/
def handleUnsupportedRequest : HttpResponse :=
  { status := 405,
    headers := [("Allow", "GET, POST, DELETE")],
    body := ResponseBody.rpcError (-32000) "Method not allowed." }

def sseHeaders (sessionId : Option String) : List (String × String) :=
  [("Content-Type", "text/event-stream"), ("Cache-Control", "no-cache"),
   ("Connection", "keep-alive")] ++
  (match sessionId with
   | some s => [("mcp-session-id", s)]
   | none => [])

def jsonHeaders (sessionId : Option String) : List (String × String) :=
  [("Content-Type", "application/json")] ++
  (match sessionId with
   | some s => [("mcp-session-id", s)]
   | none => [])

/-- The `handleGetRequest` method: open the standalone SSE stream, or 409 if
one is already open.  The `ReadableStream` `start` callback runs
synchronously, so the controller is always captured and the 500 fallback of
the source is unreachable. -/
def Transport.handleGetRequest (t : Transport) : Transport × HttpResponse :=
  match t.standaloneStream with
  | some _ => (t, jsonRpcError 409 (-32000) "Conflict: Only one SSE stream is allowed.")
  | none =>
      let streamId := freshUuid t.fresh
      ({ t with
          fresh := t.fresh + 1,
          standaloneStream := some { id := streamId, pendingIds := [] } },
       { status := 200, headers := sseHeaders t.sessionId,
         body := ResponseBody.sseStream streamId })

/-- A raw element of the POST body: either it parses against
`JSONRPCMessageSchema` or it does not. -/
inductive RawMessage
  | valid (m : JSONRPCMessage)
  | malformed
deriving DecidableEq

/-- The raw POST body: invalid JSON, a single value, or an array. -/
inductive RawBody
  | invalidJson
  | single (r : RawMessage)
  | array (rs : List RawMessage)
deriving DecidableEq

/-- An inbound HTTP request; header names are stored lowercased, matching the
case-insensitive `Headers.get`. -/
structure HttpRequest where
  method : String
  headers : List (String × String)
  body : RawBody

def parseRaw : RawMessage → Option JSONRPCMessage
  | .valid m => some m
  | .malformed => none

/-- Body parsing of `handlePostRequest`: `request.json()` followed by
per-element `JSONRPCMessageSchema.parse`; both failure modes collapse to the
same 400 parse error. -/
def parseMessages : RawBody → Option (List JSONRPCMessage)
  | .invalidJson => none
  | .single r => (parseRaw r).map (fun m => [m])
  | .array rs => rs.mapM parseRaw

/-- Whether the first character list starts the second. -/
def charsStartWith : List Char → List Char → Bool
  | [], _ => true
  | _ :: _, [] => false
  | a :: as, b :: bs => a = b && charsStartWith as bs

/-- Whether the first character list occurs contiguously in the second. -/
def charsContain (pattern text : List Char) : Bool :=
  match text with
  | [] => charsStartWith pattern []
  | _ :: bs => charsStartWith pattern text || charsContain pattern bs

/-- Model of `String.prototype.includes`. -/
def strIncludes (s sub : String) : Bool := charsContain sub.data s.data

/-- `SUPPORTED_PROTOCOL_VERSIONS` from the MCP SDK. -/
def SUPPORTED_PROTOCOL_VERSIONS : List String :=
  ["2025-06-18", "2025-03-26", "2024-11-05", "2024-10-07"]

/-- `DEFAULT_NEGOTIATED_PROTOCOL_VERSION` from the MCP SDK. -/
def DEFAULT_NEGOTIATED_PROTOCOL_VERSION : String := "2025-03-26"

/-- The `validateRequestHeaders` method (DNS-rebinding guard). -/
def Transport.validateRequestHeaders (t : Transport)
    (headers : List (String × String)) : Option String :=
  if !t.enableDnsRebindingProtection then none
  else
    let hostErr : Option String :=
      match t.allowedHosts with
      | some hs =>
          if hs.length > 0 then
            match alookup "host" headers with
            | none => some "Bad Request: Invalid Host header"
            | some h => if hs.contains h then none else some "Bad Request: Invalid Host header"
          else none
      | none => none
    match hostErr with
    | some e => some e
    | none =>
        match t.allowedOrigins with
        | some os =>
            if os.length > 0 then
              match alookup "origin" headers with
              | none => none
              | some o => if os.contains o then none else some "Bad Request: Invalid Origin header"
            else none
        | none => none

/-- The `validateProtocolVersion` method. -/
def validateProtocolVersion (headers : List (String × String)) : Option String :=
  let version := (alookup "mcp-protocol-version" headers).getD DEFAULT_NEGOTIATED_PROTOCOL_VERSION
  if SUPPORTED_PROTOCOL_VERSIONS.contains version then none
  else some ("Bad Request: Unsupported protocol version (supported versions: "
    ++ String.intercalate ", " SUPPORTED_PROTOCOL_VERSIONS ++ ")")

/-- Dispatch a batch to the `onmessage` handler, one call per message. -/
def Transport.dispatchAll (t : Transport) (msgs : List JSONRPCMessage) : Transport :=
  msgs.foldl (fun t m => { t with trace := t.trace ++ [Event.dispatch m] }) t

/-- The ids of the request objects of a batch, in batch order
(`messages.filter(isJSONRPCRequest).map(m => m.id)`). -/
def requestIdsOf : List JSONRPCMessage → List RequestId
  | [] => []
  | .request i _ :: rest => i :: requestIdsOf rest
  | _ :: rest => requestIdsOf rest

/-- One step of the registration loop of `createSseResponse`: a request adds
its id to the pending set and maps it to the stream in the reverse index. -/
def sseAccumulate (streamId : String)
    (acc : List RequestId × List (RequestId × String)) (m : JSONRPCMessage) :
    List RequestId × List (RequestId × String) :=
  match m with
  | .request i _ => (sadd i acc.1, ainsert i streamId acc.2)
  | _ => acc

/-- The registration prefix of `createSseResponse`: mint a stream id, enter
every request id of the batch into the pending-id set and the reverse index,
and put the stream into the stream map.  All of this precedes the dispatch
loop in the source. -/
def Transport.sseRegisterBatch (t : Transport) (msgs : List JSONRPCMessage) :
    Transport × String :=
  let streamId := freshUuid t.fresh
  let t := { t with fresh := t.fresh + 1 }
  let acc := msgs.foldl (sseAccumulate streamId) ([], t.requestToStream)
  ({ t with
      requestToStream := acc.2,
      streams := ainsert streamId { id := streamId, pendingIds := acc.1 } t.streams },
   streamId)

/-- The `createSseResponse` method: register the batch, then dispatch every
message, then return the 200 event-stream response. -/
def Transport.createSseResponse (t : Transport) (msgs : List JSONRPCMessage) :
    Transport × HttpResponse :=
  let r := t.sseRegisterBatch msgs
  let t2 := r.1.dispatchAll msgs
  (t2, { status := 200, headers := sseHeaders t2.sessionId,
         body := ResponseBody.sseStream r.2 })

/-- One step of the future-registration loop of `collectJsonResponses`:
register a pending future (its index) for a request id. -/
def jsonRegisterStep (t : Transport) (i : RequestId) : Transport :=
  { t with
    pendingJsonResponses := ainsert i t.nextFuture t.pendingJsonResponses,
    nextFuture := t.nextFuture + 1 }

/-- The registration prefix of `collectJsonResponses`: one pending future per
request id, created in batch order before any dispatch.  Returns the state,
the index of the first future and the number of futures. -/
def Transport.jsonRegisterBatch (t : Transport) (msgs : List JSONRPCMessage) :
    Transport × Nat × Nat :=
  let ids := requestIdsOf msgs
  let start := t.nextFuture
  let t := ids.foldl jsonRegisterStep t
  (t, start, ids.length)

/-- The synchronous part of `collectJsonResponses`: register the futures,
dispatch the batch; the `await Promise.all` is modelled separately by
`collectFutures` over the eventual resolution log. -/
def Transport.collectJsonResponses (t : Transport) (msgs : List JSONRPCMessage) :
    Transport × Nat × Nat :=
  let r := t.jsonRegisterBatch msgs
  (r.1.dispatchAll msgs, r.2)

/-- Model of `Promise.all(responsePromises)`: promise `k` of the batch
resolves to the message recorded for future `start + k`; the whole array is
available once every future is resolved. -/
def collectFutures (start : Nat) : Nat → List (Nat × JSONRPCMessage) → Option (List JSONRPCMessage)
  | 0, _ => some []
  | n + 1, res =>
      match alookup start res, collectFutures (start + 1) n res with
      | some m, some rest => some (m :: rest)
      | _, _ => none

/-- `responses.length === 1 ? responses[0] : responses`. -/
def batchShape : List JSONRPCMessage → JsonBody
  | [m] => JsonBody.single m
  | ms => JsonBody.array ms

/-- The eventual JSON response body of a batch whose futures occupy indexes
`start..start+n-1`, given the resolution log. -/
def jsonBatchBody (start n : Nat) (res : List (Nat × JSONRPCMessage)) : Option JsonBody :=
  (collectFutures start n res).map batchShape

/-- The tail of `handlePostRequest` after session/protocol validation:
notification-only batches are dispatched and acknowledged 202; request-bearing
batches go to `collectJsonResponses` (JSON mode) or `createSseResponse`. -/
def Transport.handlePostDispatch (t : Transport) (messages : List JSONRPCMessage) :
    Transport × HttpResponse :=
  if !messages.any isJSONRPCRequest then
    (t.dispatchAll messages, { status := 202, headers := [], body := ResponseBody.empty })
  else if t.enableJsonResponse then
    let r := t.collectJsonResponses messages
    (r.1, { status := 200, headers := jsonHeaders r.1.sessionId,
            body := ResponseBody.pendingJson r.2.1 r.2.2 })
  else
    t.createSseResponse messages

/-- The Accept-header guard of `handlePostRequest`. -/
def postAcceptOk (req : HttpRequest) : Bool :=
  let acceptHeader := (alookup "accept" req.headers).getD ""
  strIncludes acceptHeader "application/json" && strIncludes acceptHeader "text/event-stream"

/-- The Content-Type guard of `handlePostRequest`. -/
def postContentTypeOk (req : HttpRequest) : Bool :=
  strIncludes ((alookup "content-type" req.headers).getD "") "application/json"

/-- The part of `handlePostRequest` after the header guards and body parse:
initialize handling, session and protocol validation, then dispatch. -/
def Transport.handlePostParsed (t : Transport) (req : HttpRequest)
    (messages : List JSONRPCMessage) : Transport × HttpResponse :=
  if messages.any isInitializeRequest then
            if t.initialized && t.sessionId.isSome then
              (t, jsonRpcError 400 (-32600) "Invalid Request: Server already initialized")
            else if messages.length > 1 then
              (t, jsonRpcError 400 (-32600) "Invalid Request: Only one initialization request is allowed")
            else
              let t := match t.sessionIdGenerator with
                | some g => { t with sessionId := some (g t.fresh), fresh := t.fresh + 1, initialized := true }
                | none => { t with sessionId := none, initialized := true }
              t.handlePostDispatch messages
          else
            let sessionErr : Option HttpResponse :=
              if t.sessionIdGenerator.isSome then
                match alookup "mcp-session-id" req.headers with
                | none => some (jsonRpcError 400 (-32000) "Bad Request: Missing Mcp-Session-Id header")
                | some hdr =>
                    if some hdr ≠ t.sessionId then some (jsonRpcError 404 (-32001) "Session not found")
                    else none
              else none
            match sessionErr with
            | some resp => (t, resp)
            | none =>
                match validateProtocolVersion req.headers with
                | some perr => (t, jsonRpcError 400 (-32000) perr)
                | none => t.handlePostDispatch messages

/-- The `handlePostRequest` method: Accept and Content-Type guards, body
parse, then `handlePostParsed`. -/
def Transport.handlePostRequest (t : Transport) (req : HttpRequest) :
    Transport × HttpResponse :=
  if !postAcceptOk req then
    (t, jsonRpcError 406 (-32000) "Not Acceptable: Client must accept both application/json and text/event-stream")
  else if !postContentTypeOk req then
    (t, jsonRpcError 415 (-32000) "Unsupported Media Type: Content-Type must be application/json")
  else
    match parseMessages req.body with
    | none =>
        ({ t with trace := t.trace ++ [Event.onerrorCall] },
         jsonRpcError 400 (-32700) "Parse error")
    | some messages => t.handlePostParsed req messages

/-- The `handleDeleteRequest` method. -/
def Transport.handleDeleteRequest (t : Transport) (req : HttpRequest) :
    Transport × HttpResponse :=
  if t.sessionIdGenerator.isSome then
    match alookup "mcp-session-id" req.headers with
    | none => (t, jsonRpcError 400 (-32000) "Bad Request: Missing Mcp-Session-Id header")
    | some hdr =>
        if some hdr ≠ t.sessionId then (t, jsonRpcError 404 (-32001) "Session not found")
        else ({ t with sessionId := none, initialized := false },
              { status := 204, headers := [], body := ResponseBody.empty })
  else (t, jsonRpcError 405 (-32000) "Method not allowed.")

/-- The `handleRequest` entry point. -/
def Transport.handleRequest (t : Transport) (req : HttpRequest) :
    Transport × HttpResponse :=
  match t.validateRequestHeaders req.headers with
  | some verr => (t, jsonRpcError 400 (-32000) verr)
  | none =>
      match req.method.toUpper with
      | "GET" => t.handleGetRequest
      | "POST" => t.handlePostRequest req
      | "DELETE" => t.handleDeleteRequest req
      | _ => (t, handleUnsupportedRequest)

/-- Run a list of `send` calls (each with no related-request-id option),
ignoring thrown errors: a throw leaves the state unchanged, exactly as a
rejected `send` promise leaves the transport fields untouched. -/
def runSends (t : Transport) (msgs : List JSONRPCMessage) : Transport :=
  msgs.foldl
    (fun t m =>
      match t.send m none with
      | Except.ok t' => t'
      | Except.error _ => t)
    t

/-- The operations that can act on a transport between two HTTP requests:
this is the interleaving alphabet used for temporal claims. -/
inductive Op
  | get
  | post (req : HttpRequest)
  | del (req : HttpRequest)
  | request (req : HttpRequest)
  | sendMsg (m : JSONRPCMessage) (rel : Option RequestId)
  | cancelStandalone
  | cancelStream (sid : String)
  | closeTransport

def applyOp (t : Transport) : Op → Transport
  | .get => t.handleGetRequest.1
  | .post req => (t.handlePostRequest req).1
  | .del req => (t.handleDeleteRequest req).1
  | .request req => (t.handleRequest req).1
  | .sendMsg m rel =>
      match t.send m rel with
      | Except.ok t' => t'
      | Except.error _ => t
  | .cancelStandalone => t.cancelStandaloneStream
  | .cancelStream sid => t.cancelRequestStream sid
  | .closeTransport => t.close

/-- An operation that can assign a session id: a POST whose body parses to a
batch containing an initialize request (possibly routed through
`handleRequest`). -/
def opAssignsSession : Op → Bool
  | .post req =>
      (match parseMessages req.body with
       | some msgs => msgs.any isInitializeRequest
       | none => false)
  | .request req =>
      (match parseMessages req.body with
       | some msgs => msgs.any isInitializeRequest
       | none => false)
  | _ => false

def isOncloseEvt : Event → Bool
  | .oncloseCall => true
  | _ => false

/-! ### Association-list and set lemmas -/

section AListLemmas
variable {α β : Type} [DecidableEq α]

theorem alookup_ainsert_self (k : α) (v : β) (m : List (α × β)) :
    alookup k (ainsert k v m) = some v := by
  simp [ainsert, alookup]

theorem alookup_aerase_ne {k k' : α} (h : k ≠ k') (m : List (α × β)) :
    alookup k (aerase k' m) = alookup k m := by
  have hks : ¬ k' = k := fun hh => h hh.symm
  induction m with
  | nil => rfl
  | cons p rest ih =>
      by_cases hp : p.1 = k'
      · have hpk : ¬ p.1 = k := by
          rw [hp]; exact hks
        simp [aerase, hp, alookup, hpk, hks, ih]
      · by_cases hpk : p.1 = k
        · simp [aerase, hp, alookup, hpk, h, ih]
        · simp [aerase, hp, alookup, hpk, ih]

theorem alookup_aerase_self (k : α) (m : List (α × β)) :
    alookup k (aerase k m) = none := by
  induction m with
  | nil => rfl
  | cons p rest ih =>
      by_cases hp : p.1 = k
      · simp [aerase, hp, ih]
      · simp [aerase, hp, alookup, ih]

theorem alookup_ainsert_ne {k k' : α} (h : k ≠ k') (v : β) (m : List (α × β)) :
    alookup k (ainsert k' v m) = alookup k m := by
  have : ¬ k' = k := fun hh => h hh.symm
  simp [ainsert, alookup, this, alookup_aerase_ne h]

theorem alookup_append_left {k : α} {l : List (α × β)} {v : β}
    (h : alookup k l = some v) (l' : List (α × β)) :
    alookup k (l ++ l') = some v := by
  induction l with
  | nil => simp [alookup] at h
  | cons p rest ih =>
      by_cases hp : p.1 = k
      · simp [alookup, hp] at h ⊢; exact h
      · simp [alookup, hp] at h ⊢; exact ih h

theorem alookup_append_right {k : α} {l : List (α × β)}
    (h : alookup k l = none) (l' : List (α × β)) :
    alookup k (l ++ l') = alookup k l' := by
  induction l with
  | nil => rfl
  | cons p rest ih =>
      by_cases hp : p.1 = k
      · simp [alookup, hp] at h
      · simp [alookup, hp] at h ⊢; exact ih h

theorem mem_sdelete {x y : α} {l : List α} :
    x ∈ sdelete y l ↔ x ∈ l ∧ x ≠ y := by
  induction l with
  | nil => simp [sdelete]
  | cons z rest ih =>
      by_cases hz : z = y
      · subst hz
        rw [show sdelete z (z :: rest) = sdelete z rest from by simp [sdelete]]
        rw [ih]
        simp only [List.mem_cons]
        constructor
        · rintro ⟨h1, h2⟩
          exact ⟨Or.inr h1, h2⟩
        · rintro ⟨rfl | h1, h2⟩
          · exact absurd rfl h2
          · exact ⟨h1, h2⟩
      · simp only [sdelete, if_neg hz, List.mem_cons, ih]
        constructor
        · rintro (rfl | ⟨h1, h2⟩)
          · exact ⟨Or.inl rfl, fun hh => hz hh⟩
          · exact ⟨Or.inr h1, h2⟩
        · rintro ⟨rfl | h1, h2⟩
          · exact Or.inl rfl
          · exact Or.inr ⟨h1, h2⟩

theorem mem_sadd_self (x : α) (l : List α) : x ∈ sadd x l := by
  by_cases h : x ∈ l <;> simp [sadd, h]

theorem mem_sadd_of_mem {x : α} (y : α) {l : List α} (h : x ∈ l) : x ∈ sadd y l := by
  by_cases hy : y ∈ l <;> simp [sadd, hy, h]

end AListLemmas

theorem alookup_none_of_keys_lt {β : Type} {l : List (Nat × β)} {s x : Nat}
    (h : ∀ p ∈ l, p.1 < s) (hx : s ≤ x) : alookup x l = none := by
  induction l with
  | nil => rfl
  | cons p rest ih =>
      have h1 : p.1 < s := h p (by simp)
      have hne : ¬ p.1 = x := by omega
      exact (by simp [alookup, hne, ih (fun q hq => h q (by simp [hq]))])

/-! ### Shape lemmas: which fields each operation can touch -/

theorem dispatchAll_shape (t : Transport) (msgs : List JSONRPCMessage) :
    ∃ tr, t.dispatchAll msgs = { t with trace := tr } := by
  induction msgs generalizing t with
  | nil => exact ⟨t.trace, rfl⟩
  | cons m rest ih =>
      obtain ⟨tr, h⟩ := ih { t with trace := t.trace ++ [Event.dispatch m] }
      refine ⟨tr, ?_⟩
      simpa [Transport.dispatchAll] using h

theorem sseRegisterBatch_shape (t : Transport) (msgs : List JSONRPCMessage) :
    ∃ rts strs, (t.sseRegisterBatch msgs).1 =
      { t with fresh := t.fresh + 1, requestToStream := rts, streams := strs } :=
  ⟨_, _, rfl⟩

theorem createSseResponse_shape (t : Transport) (msgs : List JSONRPCMessage) :
    ∃ rts strs f tr, (t.createSseResponse msgs).1 =
      { t with fresh := f, requestToStream := rts, streams := strs, trace := tr } := by
  obtain ⟨rts, strs, h1⟩ := sseRegisterBatch_shape t msgs
  obtain ⟨tr, h2⟩ := dispatchAll_shape (t.sseRegisterBatch msgs).1 msgs
  refine ⟨rts, strs, t.fresh + 1, tr, ?_⟩
  show ((t.sseRegisterBatch msgs).1.dispatchAll msgs) = _
  rw [h2, h1]

theorem jsonRegisterBatch_shape (t : Transport) (msgs : List JSONRPCMessage) :
    ∃ p n, (t.jsonRegisterBatch msgs).1 =
      { t with pendingJsonResponses := p, nextFuture := n } := by
  show ∃ p n, (requestIdsOf msgs).foldl _ t = _
  generalize requestIdsOf msgs = ids
  induction ids generalizing t with
  | nil => exact ⟨t.pendingJsonResponses, t.nextFuture, rfl⟩
  | cons i rest ih =>
      obtain ⟨p, n, h⟩ := ih { t with
        pendingJsonResponses := ainsert i t.nextFuture t.pendingJsonResponses,
        nextFuture := t.nextFuture + 1 }
      exact ⟨p, n, by simpa using h⟩

theorem collectJsonResponses_shape (t : Transport) (msgs : List JSONRPCMessage) :
    ∃ p n tr, (t.collectJsonResponses msgs).1 =
      { t with pendingJsonResponses := p, nextFuture := n, trace := tr } := by
  obtain ⟨p, n, h1⟩ := jsonRegisterBatch_shape t msgs
  obtain ⟨tr, h2⟩ := dispatchAll_shape (t.jsonRegisterBatch msgs).1 msgs
  refine ⟨p, n, tr, ?_⟩
  show ((t.jsonRegisterBatch msgs).1.dispatchAll msgs) = _
  rw [h2, h1]

theorem handlePostDispatch_shape (t : Transport) (msgs : List JSONRPCMessage) :
    ∃ rts strs f tr p n, (t.handlePostDispatch msgs).1 =
      { t with fresh := f, requestToStream := rts, streams := strs, trace := tr,
               pendingJsonResponses := p, nextFuture := n } := by
  unfold Transport.handlePostDispatch
  by_cases h1 : msgs.any isJSONRPCRequest
  · by_cases h2 : t.enableJsonResponse
    · obtain ⟨p, n, tr, h⟩ := collectJsonResponses_shape t msgs
      refine ⟨t.requestToStream, t.streams, t.fresh, tr, p, n, ?_⟩
      simp [h1, h2, h]
    · obtain ⟨rts, strs, f, tr, h⟩ := createSseResponse_shape t msgs
      refine ⟨rts, strs, f, tr, t.pendingJsonResponses, t.nextFuture, ?_⟩
      simp [h1, h2, h]
  · obtain ⟨tr, h⟩ := dispatchAll_shape t msgs
    refine ⟨t.requestToStream, t.streams, t.fresh, tr, t.pendingJsonResponses,
      t.nextFuture, ?_⟩
    simp [h1, h]

/-! ### Behaviour of `send` on a reply routed to a request-bound stream -/

theorem send_sse_reply (t : Transport) {rid : RequestId} {sid : String}
    {st : StreamState} (msg : JSONRPCMessage)
    (hmode : t.enableJsonResponse = false)
    (hrev : alookup rid t.requestToStream = some sid)
    (hstr : alookup sid t.streams = some st)
    (hreply : (isJSONRPCResponse msg || isJSONRPCError msg) = true)
    (hid : messageId msg = some rid) :
    t.send msg none =
      Except.ok (if sdelete rid st.pendingIds = [] then
        { t with requestToStream := aerase rid t.requestToStream,
                 streams := aerase st.id t.streams,
                 trace := (t.trace ++ [Event.sseWrite sid msg]) ++ [Event.ctrlClose st.id] }
      else
        { t with requestToStream := aerase rid t.requestToStream,
                 streams := ainsert st.id { st with pendingIds := sdelete rid st.pendingIds } t.streams,
                 trace := t.trace ++ [Event.sseWrite sid msg] }) := by
  unfold Transport.send Transport.writeSseEvent
  simp only [hreply, if_true, hid, hmode, Bool.false_eq_true, if_false, hrev, hstr]
  by_cases hp : sdelete rid st.pendingIds = [] <;> simp [hp]

theorem send_sse_no_connection (t : Transport) {rid : RequestId}
    (msg : JSONRPCMessage)
    (hmode : t.enableJsonResponse = false)
    (hrev : alookup rid t.requestToStream = none)
    (hreply : (isJSONRPCResponse msg || isJSONRPCError msg) = true)
    (hid : messageId msg = some rid) :
    t.send msg none = Except.error (SendErr.noConnection rid) := by
  unfold Transport.send
  simp only [hreply, if_true, hid, hmode, Bool.false_eq_true, if_false, hrev]

theorem send_json_ignore (t : Transport) {rid : RequestId}
    (msg : JSONRPCMessage)
    (hmode : t.enableJsonResponse = true)
    (hpend : alookup rid t.pendingJsonResponses = none)
    (hreply : (isJSONRPCResponse msg || isJSONRPCError msg) = true)
    (hid : messageId msg = some rid) :
    t.send msg none = Except.ok t := by
  unfold Transport.send
  simp only [hreply, if_true, hid, hmode, hpend]

/-! ### Claim C1 -/

/-- C1: in SSE mode, a response or error for a request id that the reverse
index routes to a live stream is written to exactly that stream, the id is
removed from the pending set and the reverse index, and the stream is closed
and removed from the stream map exactly when its last pending id is resolved:
the trace extension shows the write, followed by the controller close if and
only if no pending id remains, with no delay. -/
theorem c1_stream_lifecycle (t : Transport) (rid : RequestId) (sid : String)
    (st : StreamState) (msg : JSONRPCMessage)
    (hmode : t.enableJsonResponse = false)
    (hrev : alookup rid t.requestToStream = some sid)
    (hstr : alookup sid t.streams = some st)
    (hsid : st.id = sid)
    (hreply : (isJSONRPCResponse msg || isJSONRPCError msg) = true)
    (hid : messageId msg = some rid) :
    ∃ t', t.send msg none = Except.ok t' ∧
      t'.trace = t.trace ++ [Event.sseWrite sid msg] ++
        (if sdelete rid st.pendingIds = [] then [Event.ctrlClose sid] else []) ∧
      alookup rid t'.requestToStream = none ∧
      (sdelete rid st.pendingIds = [] → alookup sid t'.streams = none) ∧
      (sdelete rid st.pendingIds ≠ [] →
        ∃ st', alookup sid t'.streams = some st' ∧
          st'.pendingIds = sdelete rid st.pendingIds) := by
  rw [send_sse_reply t msg hmode hrev hstr hreply hid]
  by_cases hp : sdelete rid st.pendingIds = []
  · refine ⟨_, rfl, ?_, ?_, ?_, ?_⟩
    · simp [hp, hsid]
    · simp [hp, alookup_aerase_self]
    · intro _
      simp [hp, hsid, alookup_aerase_self]
    · intro hc
      exact absurd hp hc
  · refine ⟨_, rfl, ?_, ?_, ?_, ?_⟩
    · simp [hp]
    · simp [hp, alookup_aerase_self]
    · intro hc
      exact absurd hc hp
    · intro _
      refine ⟨{ st with pendingIds := sdelete rid st.pendingIds }, ?_, rfl⟩
      simp [hp, hsid, alookup_ainsert_self]

/-- Witness for C1: a batch stream with two pending ids; resolving one keeps
the stream open, and the hypotheses hold at this concrete state. -/
theorem c1_stream_lifecycle_witness :
    ∃ t', Transport.send
      { mkTransport { } with
        requestToStream := [(RequestId.num 1, "uuid-0"), (RequestId.num 2, "uuid-0")],
        streams := [("uuid-0", { id := "uuid-0", pendingIds := [RequestId.num 1, RequestId.num 2] })] }
      (JSONRPCMessage.response (RequestId.num 1) "r") none = Except.ok t' ∧
      t'.trace = [] ++ [Event.sseWrite "uuid-0" (JSONRPCMessage.response (RequestId.num 1) "r")] ++
        (if sdelete (RequestId.num 1) [RequestId.num 1, RequestId.num 2] = [] then
          [Event.ctrlClose "uuid-0"] else []) ∧
      alookup (RequestId.num 1) t'.requestToStream = none ∧
      (sdelete (RequestId.num 1) [RequestId.num 1, RequestId.num 2] = [] →
        alookup "uuid-0" t'.streams = none) ∧
      (sdelete (RequestId.num 1) [RequestId.num 1, RequestId.num 2] ≠ [] →
        ∃ st', alookup "uuid-0" t'.streams = some st' ∧
          st'.pendingIds = sdelete (RequestId.num 1) [RequestId.num 1, RequestId.num 2]) :=
  c1_stream_lifecycle _ (RequestId.num 1) "uuid-0"
    { id := "uuid-0", pendingIds := [RequestId.num 1, RequestId.num 2] }
    (JSONRPCMessage.response (RequestId.num 1) "r") rfl rfl rfl rfl rfl rfl

/-! ### Claim C10 -/

/-- C10: resolving a request id removes it from its stream's pending set and
from the reverse index before `send` returns, so a second response or error
for the same id raises the no-connection routing error instead of writing a
duplicate event. -/
theorem c10_at_most_one_reply (t : Transport) (rid : RequestId) (sid : String)
    (st : StreamState) (msg : JSONRPCMessage)
    (hmode : t.enableJsonResponse = false)
    (hrev : alookup rid t.requestToStream = some sid)
    (hstr : alookup sid t.streams = some st)
    (hsid : st.id = sid)
    (hreply : (isJSONRPCResponse msg || isJSONRPCError msg) = true)
    (hid : messageId msg = some rid) :
    ∃ t', t.send msg none = Except.ok t' ∧
      alookup rid t'.requestToStream = none ∧
      (∀ st', alookup sid t'.streams = some st' → rid ∉ st'.pendingIds) ∧
      (∀ msg2, (isJSONRPCResponse msg2 || isJSONRPCError msg2) = true →
        messageId msg2 = some rid →
        t'.send msg2 none = Except.error (SendErr.noConnection rid)) := by
  rw [send_sse_reply t msg hmode hrev hstr hreply hid]
  by_cases hp : sdelete rid st.pendingIds = []
  · refine ⟨_, rfl, ?_, ?_, ?_⟩
    · simp [hp, alookup_aerase_self]
    · intro st' hst'
      simp [hp, hsid, alookup_aerase_self] at hst'
    · intro msg2 hreply2 hid2
      refine send_sse_no_connection _ msg2 ?_ ?_ hreply2 hid2
      · simp [hp, hmode]
      · simp [hp, alookup_aerase_self]
  · refine ⟨_, rfl, ?_, ?_, ?_⟩
    · simp [hp, alookup_aerase_self]
    · intro st' hst'
      simp [hp, hsid, alookup_ainsert_self] at hst'
      rw [← hst']
      intro hmem
      exact (mem_sdelete.mp hmem).2 rfl
    · intro msg2 hreply2 hid2
      refine send_sse_no_connection _ msg2 ?_ ?_ hreply2 hid2
      · simp [hp, hmode]
      · simp [hp, alookup_aerase_self]

/-- Witness for C10 at a concrete single-request stream. -/
theorem c10_at_most_one_reply_witness :
    ∃ t', Transport.send
      { mkTransport { } with
        requestToStream := [(RequestId.num 7, "uuid-0")],
        streams := [("uuid-0", { id := "uuid-0", pendingIds := [RequestId.num 7] })] }
      (JSONRPCMessage.response (RequestId.num 7) "r") none = Except.ok t' ∧
      alookup (RequestId.num 7) t'.requestToStream = none ∧
      (∀ st', alookup "uuid-0" t'.streams = some st' → RequestId.num 7 ∉ st'.pendingIds) ∧
      (∀ msg2, (isJSONRPCResponse msg2 || isJSONRPCError msg2) = true →
        messageId msg2 = some (RequestId.num 7) →
        t'.send msg2 none = Except.error (SendErr.noConnection (RequestId.num 7))) :=
  c10_at_most_one_reply _ (RequestId.num 7) "uuid-0"
    { id := "uuid-0", pendingIds := [RequestId.num 7] }
    (JSONRPCMessage.response (RequestId.num 7) "r") rfl rfl rfl rfl rfl rfl

/-! ### Claim C3 -/

/-- C3 counterexample: in JSON-response mode, a response for a request id
with no pending future does NOT yield a routing error — `send` returns
successfully and leaves the transport unchanged, contradicting the claim that
both modes signal a routing failure. -/
theorem c3_json_ignores_counterexample :
    (mkTransport { enableJsonResponse := some true }).send
        (JSONRPCMessage.response (RequestId.num 1) "r") none
      = Except.ok (mkTransport { enableJsonResponse := some true }) := rfl

/-- C3 amended: a response or error for an id with no open channel is a
routing error only in SSE mode (no stream in the reverse index ⇒ the
no-connection error); in JSON-response mode a reply with no pending future is
silently ignored: `send` succeeds and the state is unchanged. -/
theorem c3_routing_failure (t : Transport) (rid : RequestId) (msg : JSONRPCMessage)
    (hreply : (isJSONRPCResponse msg || isJSONRPCError msg) = true)
    (hid : messageId msg = some rid) :
    (t.enableJsonResponse = false → alookup rid t.requestToStream = none →
      t.send msg none = Except.error (SendErr.noConnection rid)) ∧
    (t.enableJsonResponse = true → alookup rid t.pendingJsonResponses = none →
      t.send msg none = Except.ok t) := by
  constructor
  · intro hmode hrev
    exact send_sse_no_connection t msg hmode hrev hreply hid
  · intro hmode hpend
    exact send_json_ignore t msg hmode hpend hreply hid

/-- Witness for C3 at concrete states: an empty SSE-mode transport throws the
no-connection error; an empty JSON-mode transport ignores the reply. -/
theorem c3_routing_failure_witness :
    (mkTransport { }).send (JSONRPCMessage.error (RequestId.str "a") 1 "boom") none
        = Except.error (SendErr.noConnection (RequestId.str "a")) ∧
    (mkTransport { enableJsonResponse := some true }).send
        (JSONRPCMessage.error (RequestId.str "a") 1 "boom") none
        = Except.ok (mkTransport { enableJsonResponse := some true }) :=
  ⟨(c3_routing_failure (mkTransport { }) (RequestId.str "a")
      (JSONRPCMessage.error (RequestId.str "a") 1 "boom") rfl rfl).1 rfl rfl,
   (c3_routing_failure (mkTransport { enableJsonResponse := some true })
      (RequestId.str "a")
      (JSONRPCMessage.error (RequestId.str "a") 1 "boom") rfl rfl).2 rfl rfl⟩

/-! ### Claim C4 -/

/-- C4 counterexample: `close()` does not attempt to close the standalone
stream's sink.  Starting from a fresh transport, a GET opens the standalone
stream `uuid-0`; after `close()` the trace holds no controller-close event
for it (only the `onclose` callback), refuting the claim that the standalone
stream's sink is closed like the request-bound ones. -/
theorem c4_standalone_sink_not_closed_counterexample :
    (mkTransport { }).handleGetRequest.1.standaloneStream =
        some { id := "uuid-0", pendingIds := [] } ∧
    Event.ctrlClose "uuid-0" ∉ (mkTransport { }).handleGetRequest.1.close.trace := by
  constructor
  · rfl
  · decide

/-- C4 amended: `close()` attempts to close the sink of every stream in the
stream map (the request-bound streams), swallowing close-time errors; it
clears the stream map, the reverse index, the pending-future map and the
standalone pointer (without closing the standalone stream's sink), and
invokes the `onclose` callback exactly once. -/
theorem c4_close_behavior (t : Transport) :
    (∀ p ∈ t.streams, Event.ctrlClose p.2.id ∈ t.close.trace) ∧
    t.close.streams = [] ∧
    t.close.requestToStream = [] ∧
    t.close.pendingJsonResponses = [] ∧
    t.close.standaloneStream = none ∧
    t.close.trace.countP isOncloseEvt = t.trace.countP isOncloseEvt + 1 := by
  refine ⟨?_, rfl, rfl, rfl, rfl, ?_⟩
  · intro p hp
    show Event.ctrlClose p.2.id ∈ t.trace ++ _ ++ [Event.oncloseCall]
    refine List.mem_append_left _ (List.mem_append_right _ ?_)
    exact List.mem_map_of_mem _ hp
  · show List.countP isOncloseEvt (t.trace ++ _ ++ [Event.oncloseCall]) = _
    rw [List.countP_append, List.countP_append]
    have h0 : List.countP isOncloseEvt (t.streams.map (fun p => Event.ctrlClose p.2.id)) = 0 := by
      rw [List.countP_eq_zero]
      intro e he
      obtain ⟨p, _, rfl⟩ := List.mem_map.mp he
      simp [isOncloseEvt]
    simp [h0, isOncloseEvt]

/-- Witness for C4 at a concrete state with one request-bound stream. -/
theorem c4_close_behavior_witness :
    Event.ctrlClose "uuid-0" ∈
      ((mkTransport { }).createSseResponse
        [JSONRPCMessage.request (RequestId.num 1) "m"]).1.close.trace ∧
    ((mkTransport { }).createSseResponse
        [JSONRPCMessage.request (RequestId.num 1) "m"]).1.close.streams = [] :=
  ⟨(c4_close_behavior _).1 ("uuid-0", { id := "uuid-0", pendingIds := [RequestId.num 1] })
      (by decide),
   (c4_close_behavior _).2.1⟩

/-! ### Claim C8 -/

/-- C8: at most one standalone SSE stream: a GET while one is open yields the
409 conflict error and leaves the whole state (hence the existing stream)
untouched; after the stream is torn down by the client's cancel callback, a
GET succeeds with a 200 `text/event-stream` response and registers a fresh
standalone stream. -/
theorem c8_standalone_stream_unique (t : Transport) :
    (∀ st, t.standaloneStream = some st →
      t.handleGetRequest =
        (t, jsonRpcError 409 (-32000) "Conflict: Only one SSE stream is allowed.")) ∧
    t.cancelStandaloneStream.standaloneStream = none ∧
    (t.cancelStandaloneStream.handleGetRequest.2.status = 200 ∧
     t.cancelStandaloneStream.handleGetRequest.2.body =
        ResponseBody.sseStream (freshUuid t.fresh) ∧
     alookup "Content-Type" t.cancelStandaloneStream.handleGetRequest.2.headers =
        some "text/event-stream" ∧
     t.cancelStandaloneStream.handleGetRequest.1.standaloneStream =
        some { id := freshUuid t.fresh, pendingIds := [] }) := by
  refine ⟨?_, rfl, ?_, ?_, ?_, ?_⟩
  · intro st hst
    unfold Transport.handleGetRequest
    rw [hst]
  · rfl
  · rfl
  · show alookup "Content-Type" (sseHeaders t.sessionId) = some "text/event-stream"
    rfl
  · rfl

/-- Witness for C8: a concrete transport whose standalone stream is open. -/
theorem c8_standalone_stream_unique_witness :
    (mkTransport { }).handleGetRequest.1.handleGetRequest =
      ((mkTransport { }).handleGetRequest.1,
       jsonRpcError 409 (-32000) "Conflict: Only one SSE stream is allowed.") ∧
    (mkTransport { }).handleGetRequest.1.cancelStandaloneStream.handleGetRequest.2.status = 200 :=
  ⟨(c8_standalone_stream_unique (mkTransport { }).handleGetRequest.1).1
      { id := "uuid-0", pendingIds := [] } rfl,
   (c8_standalone_stream_unique (mkTransport { }).handleGetRequest.1).2.2.1⟩

/-- A POST whose header guards pass and whose body parses proceeds to the
post-parse logic. -/
theorem handlePostRequest_parsed (t : Transport) (req : HttpRequest)
    {msgs : List JSONRPCMessage}
    (hacc : postAcceptOk req = true) (hct : postContentTypeOk req = true)
    (hparse : parseMessages req.body = some msgs) :
    t.handlePostRequest req = t.handlePostParsed req msgs := by
  unfold Transport.handlePostRequest
  simp [hacc, hct, hparse]

/-! ### Claim C9 -/

/-- C9: `close()` leaves the session identity untouched: the `sessionId` and
`initialized` fields keep their values, so an initialized transport with an
assigned session id still rejects a new initialize POST with the
already-initialized 400 after being closed. -/
theorem c9_close_keeps_session (t : Transport) :
    t.close.sessionId = t.sessionId ∧
    t.close.initialized = t.initialized ∧
    (∀ s req msgs, t.initialized = true → t.sessionId = some s →
      postAcceptOk req = true → postContentTypeOk req = true →
      parseMessages req.body = some msgs →
      msgs.any isInitializeRequest = true →
      (t.close.handlePostRequest req).2 =
        jsonRpcError 400 (-32600) "Invalid Request: Server already initialized") := by
  refine ⟨rfl, rfl, ?_⟩
  intro s req msgs hinit hsess hacc hct hparse hany
  rw [handlePostRequest_parsed _ _ hacc hct hparse]
  unfold Transport.handlePostParsed
  simp [hany, Transport.close, hinit, hsess]

/-- Witness for C9: a concrete initialized transport with a session id. -/
theorem c9_close_keeps_session_witness :
    ({ mkTransport { } with initialized := true, sessionId := some "s" } : Transport).close.sessionId = some "s" ∧
    ({ mkTransport { } with initialized := true, sessionId := some "s" } : Transport).close.initialized = true ∧
    (({ mkTransport { } with initialized := true, sessionId := some "s" } : Transport).close.handlePostRequest
      { method := "POST",
        headers := [("accept", "application/json, text/event-stream"),
                    ("content-type", "application/json")],
        body := RawBody.single (RawMessage.valid
          (JSONRPCMessage.request (RequestId.num 0) "initialize")) }).2 =
      jsonRpcError 400 (-32600) "Invalid Request: Server already initialized" :=
  ⟨(c9_close_keeps_session _).1,
   (c9_close_keeps_session _).2.1,
   (c9_close_keeps_session _).2.2 "s" _ [JSONRPCMessage.request (RequestId.num 0) "initialize"]
     rfl rfl rfl rfl rfl rfl⟩

/-! ### Claim C6 -/

/-- C6: a POST whose parsed body contains an initialize message is rejected
400 when the transport is already initialized with an assigned session id,
rejected 400 when the body holds more than one message, and otherwise
assigns the session id from the configured generator (undefined when no
generator is configured) and sets the initialized flag. -/
theorem c6_initialize_post (t : Transport) (req : HttpRequest)
    (msgs : List JSONRPCMessage)
    (hacc : postAcceptOk req = true) (hct : postContentTypeOk req = true)
    (hparse : parseMessages req.body = some msgs)
    (hany : msgs.any isInitializeRequest = true) :
    ((t.initialized && t.sessionId.isSome) = true →
      (t.handlePostRequest req).2 =
        jsonRpcError 400 (-32600) "Invalid Request: Server already initialized") ∧
    ((t.initialized && t.sessionId.isSome) = false → msgs.length > 1 →
      (t.handlePostRequest req).2 =
        jsonRpcError 400 (-32600) "Invalid Request: Only one initialization request is allowed") ∧
    ((t.initialized && t.sessionId.isSome) = false → ¬ msgs.length > 1 →
      (t.handlePostRequest req).1.sessionId = t.sessionIdGenerator.map (fun g => g t.fresh) ∧
      (t.handlePostRequest req).1.initialized = true) := by
  rw [handlePostRequest_parsed t req hacc hct hparse]
  unfold Transport.handlePostParsed
  refine ⟨?_, ?_, ?_⟩
  · intro hyes
    simp [hany, hyes]
  · intro hno hgt
    simp [hany, hno, hgt]
  · intro hno hle
    have key : ∀ (u : Transport),
        (u.handlePostDispatch msgs).1.sessionId = u.sessionId ∧
        (u.handlePostDispatch msgs).1.initialized = u.initialized := by
      intro u
      obtain ⟨rts, strs, f, tr, p, n, h⟩ := handlePostDispatch_shape u msgs
      rw [h]
      exact ⟨rfl, rfl⟩
    simp only [hany, if_true, hno, Bool.false_eq_true, if_false, hle]
    cases hgen : t.sessionIdGenerator with
    | none =>
        simp only [hgen]
        exact ⟨by rw [(key _).1]; simp, by rw [(key _).2]⟩
    | some g =>
        simp only [hgen]
        exact ⟨by rw [(key _).1]; simp, by rw [(key _).2]⟩

/-- Witness for C6: a fresh transport with a generator accepts a single
initialize POST, assigning the generated session id and the flag. -/
theorem c6_initialize_post_witness :
    ((mkTransport { sessionIdGenerator := some (fun n => "sess-" ++ toString n) }).handlePostRequest
      { method := "POST",
        headers := [("accept", "application/json, text/event-stream"),
                    ("content-type", "application/json")],
        body := RawBody.single (RawMessage.valid
          (JSONRPCMessage.request (RequestId.num 0) "initialize")) }).1.sessionId = some "sess-0" ∧
    ((mkTransport { sessionIdGenerator := some (fun n => "sess-" ++ toString n) }).handlePostRequest
      { method := "POST",
        headers := [("accept", "application/json, text/event-stream"),
                    ("content-type", "application/json")],
        body := RawBody.single (RawMessage.valid
          (JSONRPCMessage.request (RequestId.num 0) "initialize")) }).1.initialized = true := by
  have h := (c6_initialize_post
    (mkTransport { sessionIdGenerator := some (fun n => "sess-" ++ toString n) })
    { method := "POST",
      headers := [("accept", "application/json, text/event-stream"),
                  ("content-type", "application/json")],
      body := RawBody.single (RawMessage.valid
        (JSONRPCMessage.request (RequestId.num 0) "initialize")) }
    [JSONRPCMessage.request (RequestId.num 0) "initialize"]
    rfl rfl rfl rfl).2.2 rfl (by decide)
  refine ⟨?_, h.2⟩
  rw [h.1]
  rfl

/-! ### Frame lemmas for the session fields -/

theorem send_ok_shape {t t' : Transport} {m : JSONRPCMessage} {rel : Option RequestId} :
    t.send m rel = Except.ok t' →
    ∃ rts strs pend fut tr, t' =
      { t with requestToStream := rts, streams := strs,
               pendingJsonResponses := pend, futureResolutions := fut, trace := tr } := by
  unfold Transport.send Transport.writeSseEvent
  repeat' split
  all_goals intro h
  all_goals first
    | (cases h; exact ⟨_, _, _, _, _, rfl⟩)
    | cases h

theorem handleGetRequest_session (t : Transport) :
    t.handleGetRequest.1.sessionId = t.sessionId ∧
    t.handleGetRequest.1.sessionIdGenerator = t.sessionIdGenerator := by
  unfold Transport.handleGetRequest
  split <;> exact ⟨rfl, rfl⟩

theorem handleDeleteRequest_session (t : Transport) (req : HttpRequest) :
    ((t.handleDeleteRequest req).1.sessionId = t.sessionId ∨
     (t.handleDeleteRequest req).1.sessionId = none) ∧
    (t.handleDeleteRequest req).1.sessionIdGenerator = t.sessionIdGenerator := by
  unfold Transport.handleDeleteRequest
  repeat' split
  all_goals exact ⟨by first | exact Or.inl rfl | exact Or.inr rfl, rfl⟩

theorem handlePostDispatch_session (u : Transport) (msgs : List JSONRPCMessage) :
    (u.handlePostDispatch msgs).1.sessionIdGenerator = u.sessionIdGenerator ∧
    (u.handlePostDispatch msgs).1.sessionId = u.sessionId := by
  obtain ⟨rts, strs, f, tr, p, n, h⟩ := handlePostDispatch_shape u msgs
  rw [h]
  exact ⟨rfl, rfl⟩

theorem handlePostParsed_gen (t : Transport) (req : HttpRequest)
    (msgs : List JSONRPCMessage) :
    (t.handlePostParsed req msgs).1.sessionIdGenerator = t.sessionIdGenerator := by
  unfold Transport.handlePostParsed
  repeat' split
  all_goals first
    | rfl
    | (rw [(handlePostDispatch_session _ msgs).1])

theorem handlePostParsed_sessionId_noInit (t : Transport) (req : HttpRequest)
    (msgs : List JSONRPCMessage) (hni : msgs.any isInitializeRequest = false) :
    (t.handlePostParsed req msgs).1.sessionId = t.sessionId := by
  unfold Transport.handlePostParsed
  rw [hni]
  simp only [Bool.false_eq_true, if_false]
  repeat' split
  all_goals first
    | rfl
    | (rw [(handlePostDispatch_session _ msgs).2])

theorem handlePostRequest_gen (t : Transport) (req : HttpRequest) :
    (t.handlePostRequest req).1.sessionIdGenerator = t.sessionIdGenerator := by
  unfold Transport.handlePostRequest
  repeat' split
  all_goals first
    | rfl
    | (rw [handlePostParsed_gen])

theorem handlePostRequest_sessionId_noInit (t : Transport) (req : HttpRequest)
    (hni : opAssignsSession (Op.post req) = false) :
    (t.handlePostRequest req).1.sessionId = t.sessionId := by
  simp only [opAssignsSession] at hni
  unfold Transport.handlePostRequest
  repeat' split
  all_goals first
    | rfl
    | (rename_i heq
       rw [heq] at hni
       exact handlePostParsed_sessionId_noInit _ _ _ hni)

theorem handleRequest_gen (t : Transport) (req : HttpRequest) :
    (t.handleRequest req).1.sessionIdGenerator = t.sessionIdGenerator := by
  unfold Transport.handleRequest
  repeat' split
  all_goals first
    | rfl
    | (rw [(handleGetRequest_session t).2])
    | (rw [handlePostRequest_gen])
    | (rw [(handleDeleteRequest_session t req).2])

theorem handleRequest_sessionId_none (t : Transport) (req : HttpRequest)
    (hni : opAssignsSession (Op.request req) = false)
    (h : t.sessionId = none) :
    (t.handleRequest req).1.sessionId = none := by
  unfold Transport.handleRequest
  repeat' split
  all_goals first
    | exact h
    | (rw [(handleGetRequest_session t).1]; exact h)
    | (rw [handlePostRequest_sessionId_noInit t req (by exact hni)]; exact h)
    | (rcases (handleDeleteRequest_session t req).1 with h1 | h1
       · rw [h1]; exact h
       · rw [h1])

theorem applyOp_gen (t : Transport) (op : Op) :
    (applyOp t op).sessionIdGenerator = t.sessionIdGenerator := by
  unfold applyOp
  cases op with
  | get => exact (handleGetRequest_session t).2
  | post req => exact handlePostRequest_gen t req
  | del req => exact (handleDeleteRequest_session t req).2
  | request req => exact handleRequest_gen t req
  | sendMsg m rel =>
      show (match t.send m rel with | Except.ok t' => t' | Except.error _ => t).sessionIdGenerator = _
      cases hs : t.send m rel with
      | ok t' =>
          obtain ⟨rts, strs, pend, fut, tr, h⟩ := send_ok_shape hs
          rw [h]
      | error e => rfl
  | cancelStandalone => rfl
  | cancelStream sid => rfl
  | closeTransport => rfl

theorem applyOp_sessionId_none (t : Transport) (op : Op)
    (hop : opAssignsSession op = false) (h : t.sessionId = none) :
    (applyOp t op).sessionId = none := by
  unfold applyOp
  cases op with
  | get => rw [(handleGetRequest_session t).1]; exact h
  | post req => rw [handlePostRequest_sessionId_noInit t req hop]; exact h
  | del req =>
      rcases (handleDeleteRequest_session t req).1 with h1 | h1
      · rw [h1]
        exact h
      · exact h1
  | request req => exact handleRequest_sessionId_none t req hop h
  | sendMsg m rel =>
      show (match t.send m rel with | Except.ok t' => t' | Except.error _ => t).sessionId = _
      cases hs : t.send m rel with
      | ok t' =>
          obtain ⟨rts, strs, pend, fut, tr, hsh⟩ := send_ok_shape hs
          rw [hsh]; exact h
      | error e => exact h
  | cancelStandalone => exact h
  | cancelStream sid => exact h
  | closeTransport => exact h

theorem foldl_applyOp_session {ops : List Op}
    (hops : ∀ op ∈ ops, opAssignsSession op = false)
    {t : Transport} (h : t.sessionId = none) :
    (ops.foldl applyOp t).sessionId = none ∧
    (ops.foldl applyOp t).sessionIdGenerator = t.sessionIdGenerator := by
  induction ops generalizing t with
  | nil => exact ⟨h, rfl⟩
  | cons op rest ih =>
      have h1 := applyOp_sessionId_none t op (hops op (by simp)) h
      have h2 := applyOp_gen t op
      obtain ⟨ih1, ih2⟩ := ih (fun o ho => hops o (by simp [ho])) h1
      exact ⟨ih1, by rw [List.foldl_cons, ih2, h2]⟩

/-! ### Claim C7 -/

/-- C7: with a session generator configured and session id `s` assigned, a
DELETE presenting `s` responds 204 and clears the session id and initialized
flag; thereafter, under any sequence of operations that contains no
initialize POST, a well-formed non-initialize POST or a DELETE presenting the
old id `s` is rejected 404 with code -32001. -/
theorem c7_session_delete (t : Transport) (g : Nat → String) (s : String)
    (dreq : HttpRequest)
    (hgen : t.sessionIdGenerator = some g)
    (hsess : t.sessionId = some s)
    (hhdr : alookup "mcp-session-id" dreq.headers = some s) :
    (t.handleDeleteRequest dreq).2.status = 204 ∧
    (t.handleDeleteRequest dreq).1.sessionId = none ∧
    (t.handleDeleteRequest dreq).1.initialized = false ∧
    (∀ ops : List Op, (∀ op ∈ ops, opAssignsSession op = false) →
      (∀ preq msgs2,
        postAcceptOk preq = true → postContentTypeOk preq = true →
        parseMessages preq.body = some msgs2 →
        msgs2.any isInitializeRequest = false →
        alookup "mcp-session-id" preq.headers = some s →
        ((ops.foldl applyOp (t.handleDeleteRequest dreq).1).handlePostRequest preq).2 =
          jsonRpcError 404 (-32001) "Session not found") ∧
      (∀ dreq2, alookup "mcp-session-id" dreq2.headers = some s →
        ((ops.foldl applyOp (t.handleDeleteRequest dreq).1).handleDeleteRequest dreq2).2 =
          jsonRpcError 404 (-32001) "Session not found")) := by
  have hdel : t.handleDeleteRequest dreq =
      ({ t with sessionId := none, initialized := false },
       { status := 204, headers := [], body := ResponseBody.empty }) := by
    unfold Transport.handleDeleteRequest
    simp [hgen, hhdr, hsess]
  refine ⟨by rw [hdel], by rw [hdel], by rw [hdel], ?_⟩
  intro ops hops
  have h0 : (t.handleDeleteRequest dreq).1.sessionId = none := by rw [hdel]
  have hg0 : (t.handleDeleteRequest dreq).1.sessionIdGenerator = some g := by
    rw [hdel]; exact hgen
  obtain ⟨hs2, hg2⟩ := foldl_applyOp_session hops h0
  have hgen2 : (ops.foldl applyOp (t.handleDeleteRequest dreq).1).sessionIdGenerator = some g := by
    rw [hg2]; exact hg0
  constructor
  · intro preq msgs2 hacc hct hparse hni hsid
    rw [handlePostRequest_parsed _ preq hacc hct hparse]
    unfold Transport.handlePostParsed
    simp [hni, hgen2, hsid, hs2]
  · intro dreq2 hsid2
    revert hs2 hgen2
    generalize ops.foldl applyOp (t.handleDeleteRequest dreq).1 = u
    intro hs2 hgen2
    unfold Transport.handleDeleteRequest
    simp [hgen2, hsid2, hs2]

/-- Witness for C7: initialize to obtain session `sess-0`, DELETE it, run a
GET in between, then observe 404 for a stale POST and a stale DELETE. -/
theorem c7_session_delete_witness :
    (((mkTransport { sessionIdGenerator := some (fun n => "sess-" ++ toString n) }).handlePostRequest
      { method := "POST",
        headers := [("accept", "application/json, text/event-stream"),
                    ("content-type", "application/json")],
        body := RawBody.single (RawMessage.valid
          (JSONRPCMessage.request (RequestId.num 0) "initialize")) }).1.handleDeleteRequest
      { method := "DELETE", headers := [("mcp-session-id", "sess-0")],
        body := RawBody.array [] }).2.status = 204 ∧
    (([Op.get].foldl applyOp
        (((mkTransport { sessionIdGenerator := some (fun n => "sess-" ++ toString n) }).handlePostRequest
          { method := "POST",
            headers := [("accept", "application/json, text/event-stream"),
                        ("content-type", "application/json")],
            body := RawBody.single (RawMessage.valid
              (JSONRPCMessage.request (RequestId.num 0) "initialize")) }).1.handleDeleteRequest
          { method := "DELETE", headers := [("mcp-session-id", "sess-0")],
            body := RawBody.array [] }).1).handlePostRequest
      { method := "POST",
        headers := [("accept", "application/json, text/event-stream"),
                    ("content-type", "application/json"),
                    ("mcp-session-id", "sess-0")],
        body := RawBody.single (RawMessage.valid
          (JSONRPCMessage.request (RequestId.num 1) "tools/list")) }).2 =
      jsonRpcError 404 (-32001) "Session not found" := by
  have h := c7_session_delete
    ((mkTransport { sessionIdGenerator := some (fun n => "sess-" ++ toString n) }).handlePostRequest
      { method := "POST",
        headers := [("accept", "application/json, text/event-stream"),
                    ("content-type", "application/json")],
        body := RawBody.single (RawMessage.valid
          (JSONRPCMessage.request (RequestId.num 0) "initialize")) }).1
    (fun n => "sess-" ++ toString n) "sess-0"
    { method := "DELETE", headers := [("mcp-session-id", "sess-0")],
      body := RawBody.array [] }
    rfl rfl rfl
  refine ⟨h.1, ?_⟩
  exact (h.2.2.2 [Op.get] (by decide)).1
    { method := "POST",
      headers := [("accept", "application/json, text/event-stream"),
                  ("content-type", "application/json"),
                  ("mcp-session-id", "sess-0")],
      body := RawBody.single (RawMessage.valid
        (JSONRPCMessage.request (RequestId.num 1) "tools/list")) }
    [JSONRPCMessage.request (RequestId.num 1) "tools/list"]
    rfl rfl rfl rfl rfl

/-! ### Registration lemmas for C2 and C5 -/

theorem sseAccumulate_foldl_spec (sid : String) (msgs : List JSONRPCMessage) :
    ∀ (pend : List RequestId) (rts : List (RequestId × String)),
    (∀ i ∈ requestIdsOf msgs,
      i ∈ (msgs.foldl (sseAccumulate sid) (pend, rts)).1 ∧
      alookup i (msgs.foldl (sseAccumulate sid) (pend, rts)).2 = some sid) ∧
    (∀ i ∈ pend, i ∈ (msgs.foldl (sseAccumulate sid) (pend, rts)).1) ∧
    (∀ i, alookup i rts = some sid →
      alookup i (msgs.foldl (sseAccumulate sid) (pend, rts)).2 = some sid) := by
  induction msgs with
  | nil =>
      intro pend rts
      exact ⟨(by intro i hi; cases hi), fun i hi => hi, fun i hi => hi⟩
  | cons m rest ih =>
      intro pend rts
      cases m with
      | request j meth =>
          obtain ⟨p1, p2, p3⟩ := ih (sadd j pend) (ainsert j sid rts)
          refine ⟨?_, ?_, ?_⟩
          · intro i hi
            rw [show requestIdsOf (JSONRPCMessage.request j meth :: rest) = j :: requestIdsOf rest from rfl,
              List.mem_cons] at hi
            rcases hi with rfl | hi
            · exact ⟨p2 i (mem_sadd_self i pend), p3 i (alookup_ainsert_self i sid rts)⟩
            · exact p1 i hi
          · intro i hi
            exact p2 i (mem_sadd_of_mem j hi)
          · intro i hi
            by_cases hij : i = j
            · subst hij
              exact p3 i (alookup_ainsert_self i sid rts)
            · exact p3 i (by rw [alookup_ainsert_ne hij]; exact hi)
      | notification meth =>
          obtain ⟨p1, p2, p3⟩ := ih pend rts
          exact ⟨fun i hi => p1 i hi, p2, p3⟩
      | response j res =>
          obtain ⟨p1, p2, p3⟩ := ih pend rts
          exact ⟨fun i hi => p1 i hi, p2, p3⟩
      | error j c emsg =>
          obtain ⟨p1, p2, p3⟩ := ih pend rts
          exact ⟨fun i hi => p1 i hi, p2, p3⟩

/-- Every request id of the batch is registered in the reverse index, in the
stream map entry's pending set, and (when JSON mode is off) `send` succeeds
for a reply to it, in the state produced by `sseRegisterBatch`. -/
theorem sseRegisterBatch_registered (t : Transport) (msgs : List JSONRPCMessage) :
    ∀ i ∈ requestIdsOf msgs,
      alookup i (t.sseRegisterBatch msgs).1.requestToStream =
        some (t.sseRegisterBatch msgs).2 ∧
      ∃ st, alookup (t.sseRegisterBatch msgs).2 (t.sseRegisterBatch msgs).1.streams = some st ∧
        st.id = (t.sseRegisterBatch msgs).2 ∧ i ∈ st.pendingIds := by
  intro i hi
  obtain ⟨p1, _, _⟩ := sseAccumulate_foldl_spec (freshUuid t.fresh) msgs [] t.requestToStream
  obtain ⟨hmem, hlook⟩ := p1 i hi
  exact ⟨hlook,
    ⟨{ id := freshUuid t.fresh,
       pendingIds := (msgs.foldl (sseAccumulate (freshUuid t.fresh)) ([], t.requestToStream)).1 },
     alookup_ainsert_self _ _ _, rfl, hmem⟩⟩

theorem jsonRegisterFold_const (ids : List RequestId) :
    ∀ (t : Transport),
    (ids.foldl jsonRegisterStep t).futureResolutions = t.futureResolutions ∧
    (ids.foldl jsonRegisterStep t).nextFuture = t.nextFuture + ids.length ∧
    (ids.foldl jsonRegisterStep t).enableJsonResponse = t.enableJsonResponse ∧
    (ids.foldl jsonRegisterStep t).trace = t.trace := by
  induction ids with
  | nil => exact fun t => ⟨rfl, rfl, rfl, rfl⟩
  | cons j rest ih =>
      intro t
      obtain ⟨h1, h2, h3, h4⟩ := ih (jsonRegisterStep t j)
      refine ⟨h1, ?_, h3, h4⟩
      rw [List.foldl_cons, h2]
      show (t.nextFuture + 1) + rest.length = t.nextFuture + (rest.length + 1)
      omega

theorem jsonRegisterFold_not_mem (ids : List RequestId) :
    ∀ (t : Transport) (i : RequestId), i ∉ ids →
    alookup i (ids.foldl jsonRegisterStep t).pendingJsonResponses =
      alookup i t.pendingJsonResponses := by
  induction ids with
  | nil => intro t i _; rfl
  | cons j rest ih =>
      intro t i hi
      rw [List.foldl_cons, ih (jsonRegisterStep t j) i (fun h => hi (List.mem_cons_of_mem _ h))]
      show alookup i (ainsert j t.nextFuture t.pendingJsonResponses) = _
      exact alookup_ainsert_ne (fun h => hi (by rw [h]; exact List.mem_cons_self j rest)) _ _

theorem jsonRegisterFold_mem (ids : List RequestId) :
    ∀ (t : Transport) (i : RequestId), i ∈ ids →
    ∃ idx, alookup i (ids.foldl jsonRegisterStep t).pendingJsonResponses = some idx := by
  induction ids with
  | nil => intro t i hi; cases hi
  | cons j rest ih =>
      intro t i hi
      by_cases hmem : i ∈ rest
      · exact ih (jsonRegisterStep t j) i hmem
      · have hij : i = j := by
          rcases List.mem_cons.mp hi with h | h
          · exact h
          · exact absurd h hmem
        subst hij
        rw [List.foldl_cons, jsonRegisterFold_not_mem rest (jsonRegisterStep t i) i hmem]
        exact ⟨t.nextFuture, alookup_ainsert_self _ _ _⟩

/-- Indexed registration: with distinct request ids, the `k`-th id's pending
future is the `k`-th future created, starting at the pre-registration
`nextFuture` counter. -/
theorem jsonRegisterFold_lookup (ids : List RequestId) (hnd : ids.Nodup) :
    ∀ (t : Transport) (k : Nat) (hk : k < ids.length),
    alookup (ids.get ⟨k, hk⟩) (ids.foldl jsonRegisterStep t).pendingJsonResponses =
      some (t.nextFuture + k) := by
  induction ids with
  | nil => intro t k hk; cases hk
  | cons j rest ih =>
      intro t k hk
      cases k with
      | zero =>
          have hj : j ∉ rest := (List.nodup_cons.mp hnd).1
          rw [show (j :: rest).get ⟨0, hk⟩ = j from rfl, List.foldl_cons,
            jsonRegisterFold_not_mem rest (jsonRegisterStep t j) j hj]
          show alookup j (ainsert j t.nextFuture t.pendingJsonResponses) = some (t.nextFuture + 0)
          rw [alookup_ainsert_self]
          norm_num
      | succ k' =>
          have hk' : k' < rest.length := Nat.lt_of_succ_lt_succ hk
          rw [show (j :: rest).get ⟨k' + 1, hk⟩ = rest.get ⟨k', hk'⟩ from rfl, List.foldl_cons,
            ih (List.nodup_cons.mp hnd).2 (jsonRegisterStep t j) k' hk']
          show some ((t.nextFuture + 1) + k') = some (t.nextFuture + (k' + 1))
          norm_num
          omega

/-! ### Claim C2 -/

/-- C2: all routing state is registered before any message of the batch is
dispatched.  `createSseResponse` (resp. `collectJsonResponses`) dispatches
from the fully registered state: there, every request id of the batch is in
the reverse index and in the stream map entry's pending set (resp. has a
pending future), and in SSE mode a synchronous reply to any of those ids
makes `send` succeed rather than hit the routing-failure branch. -/
theorem c2_register_before_dispatch (t : Transport) (msgs : List JSONRPCMessage) :
    (t.createSseResponse msgs).1 = ((t.sseRegisterBatch msgs).1).dispatchAll msgs ∧
    (∀ i ∈ requestIdsOf msgs,
      alookup i (t.sseRegisterBatch msgs).1.requestToStream =
        some (t.sseRegisterBatch msgs).2 ∧
      (∃ st, alookup (t.sseRegisterBatch msgs).2 (t.sseRegisterBatch msgs).1.streams = some st ∧
        i ∈ st.pendingIds) ∧
      (t.enableJsonResponse = false →
        ∀ msg2, (isJSONRPCResponse msg2 || isJSONRPCError msg2) = true →
          messageId msg2 = some i →
          ∃ t2, ((t.sseRegisterBatch msgs).1).send msg2 none = Except.ok t2)) ∧
    (t.collectJsonResponses msgs).1 = ((t.jsonRegisterBatch msgs).1).dispatchAll msgs ∧
    (∀ i ∈ requestIdsOf msgs,
      ∃ idx, alookup i (t.jsonRegisterBatch msgs).1.pendingJsonResponses = some idx) := by
  refine ⟨rfl, ?_, rfl, ?_⟩
  · intro i hi
    obtain ⟨hlook, st, hst, hstid, hmem⟩ := sseRegisterBatch_registered t msgs i hi
    refine ⟨hlook, ⟨st, hst, hmem⟩, ?_⟩
    intro hmode msg2 hreply2 hid2
    have hmode1 : (t.sseRegisterBatch msgs).1.enableJsonResponse = false := by
      obtain ⟨rts, strs, h⟩ := sseRegisterBatch_shape t msgs
      rw [h]; exact hmode
    exact ⟨_, send_sse_reply _ msg2 hmode1 hlook hst hreply2 hid2⟩
  · intro i hi
    exact jsonRegisterFold_mem (requestIdsOf msgs) t i hi

/-- Witness for C2: a two-request batch (with a notification in between) on
concrete transports in both modes. -/
theorem c2_register_before_dispatch_witness :
    (alookup (RequestId.num 1)
      ((mkTransport { }).sseRegisterBatch
        [JSONRPCMessage.request (RequestId.num 1) "a", JSONRPCMessage.notification "n",
         JSONRPCMessage.request (RequestId.num 2) "b"]).1.requestToStream =
      some ((mkTransport { }).sseRegisterBatch
        [JSONRPCMessage.request (RequestId.num 1) "a", JSONRPCMessage.notification "n",
         JSONRPCMessage.request (RequestId.num 2) "b"]).2) ∧
    (∃ t2, (((mkTransport { }).sseRegisterBatch
        [JSONRPCMessage.request (RequestId.num 1) "a", JSONRPCMessage.notification "n",
         JSONRPCMessage.request (RequestId.num 2) "b"]).1).send
        (JSONRPCMessage.response (RequestId.num 1) "r") none = Except.ok t2) ∧
    (∃ idx, alookup (RequestId.num 1)
      ((mkTransport { enableJsonResponse := some true }).jsonRegisterBatch
        [JSONRPCMessage.request (RequestId.num 1) "a", JSONRPCMessage.notification "n",
         JSONRPCMessage.request (RequestId.num 2) "b"]).1.pendingJsonResponses = some idx) := by
  have h1 := c2_register_before_dispatch (mkTransport { })
    [JSONRPCMessage.request (RequestId.num 1) "a", JSONRPCMessage.notification "n",
     JSONRPCMessage.request (RequestId.num 2) "b"]
  have h2 := c2_register_before_dispatch (mkTransport { enableJsonResponse := some true })
    [JSONRPCMessage.request (RequestId.num 1) "a", JSONRPCMessage.notification "n",
     JSONRPCMessage.request (RequestId.num 2) "b"]
  obtain ⟨hl, _, hsend⟩ := h1.2.1 (RequestId.num 1) (by decide)
  exact ⟨hl,
    hsend rfl (JSONRPCMessage.response (RequestId.num 1) "r") rfl rfl,
    h2.2.2.2 (RequestId.num 1) (by decide)⟩

/-! ### Resolution lemmas for C5 -/

theorem send_json_resolve (u : Transport) {rid : RequestId} {idx : Nat}
    (msg : JSONRPCMessage)
    (hmode : u.enableJsonResponse = true)
    (hlook : alookup rid u.pendingJsonResponses = some idx)
    (hreply : (isJSONRPCResponse msg || isJSONRPCError msg) = true)
    (hid : messageId msg = some rid) :
    u.send msg none = Except.ok { u with
      futureResolutions := u.futureResolutions ++ [(idx, msg)],
      pendingJsonResponses := aerase rid u.pendingJsonResponses } := by
  unfold Transport.send
  simp only [hreply, if_true, hid, hmode, hlook]

/-- Resolving the batch's replies in an arbitrary order `order` records, for
every index `k` of the id list, the reply `f (ids.get k)` under future key
`start + k`. -/
theorem runSends_invariant (ids : List RequestId) (hnd : ids.Nodup)
    (f : RequestId → JSONRPCMessage) (start : Nat)
    (hf : ∀ i ∈ ids,
      (isJSONRPCResponse (f i) || isJSONRPCError (f i)) = true ∧ messageId (f i) = some i) :
    ∀ (order : List RequestId), order.Nodup → (∀ i ∈ order, i ∈ ids) →
    ∀ (u : Transport), u.enableJsonResponse = true →
    (∀ k (hk : k < ids.length), ids.get ⟨k, hk⟩ ∈ order →
        alookup (ids.get ⟨k, hk⟩) u.pendingJsonResponses = some (start + k) ∧
        alookup (start + k) u.futureResolutions = none) →
    (∀ k (hk : k < ids.length), ids.get ⟨k, hk⟩ ∉ order →
        alookup (start + k) u.futureResolutions = some (f (ids.get ⟨k, hk⟩))) →
    ∀ k (hk : k < ids.length),
      alookup (start + k) (runSends u (order.map f)).futureResolutions =
        some (f (ids.get ⟨k, hk⟩)) := by
  have getInj := List.nodup_iff_injective_get.mp hnd
  intro order
  induction order with
  | nil =>
      intro _ _ u _ _ inv3 k hk
      exact inv3 k hk (by simp)
  | cons o rest ih =>
      intro hond hoin u hmode inv2 inv3 k hk
      have honotin : o ∉ rest := (List.nodup_cons.mp hond).1
      obtain ⟨k0, hk0get⟩ := List.mem_iff_get.mp (hoin o (List.mem_cons_self o rest))
      obtain ⟨hreply0, hid0⟩ := hf o (hoin o (List.mem_cons_self o rest))
      obtain ⟨hpend0, hres0⟩ := inv2 k0.1 k0.2 (by rw [hk0get]; exact List.mem_cons_self o rest)
      rw [hk0get] at hpend0
      have hsend := send_json_resolve u (f o) hmode hpend0 hreply0 hid0
      have hstep : runSends u ((o :: rest).map f) =
          runSends { u with
            futureResolutions := u.futureResolutions ++ [(start + k0.1, f o)],
            pendingJsonResponses := aerase o u.pendingJsonResponses } (rest.map f) := by
        rw [List.map_cons]
        show List.foldl _ _ (f o :: rest.map f) = _
        rw [List.foldl_cons, hsend]
        rfl
      rw [hstep]
      refine ih (List.nodup_cons.mp hond).2
        (fun i hi => hoin i (List.mem_cons_of_mem o hi))
        { u with
          futureResolutions := u.futureResolutions ++ [(start + k0.1, f o)],
          pendingJsonResponses := aerase o u.pendingJsonResponses }
        hmode ?_ ?_ k hk
      · intro k' hk' hmem'
        have hne : ids.get ⟨k', hk'⟩ ≠ o := by
          intro heq
          rw [heq] at hmem'
          exact honotin hmem'
        have hkk : k' ≠ k0.1 := by
          intro heq
          apply hne
          rw [← hk0get]
          congr 1
          exact Fin.ext heq
        obtain ⟨hp, hr⟩ := inv2 k' hk' (List.mem_cons_of_mem o hmem')
        refine ⟨?_, ?_⟩
        · show alookup _ (aerase o u.pendingJsonResponses) = _
          rw [alookup_aerase_ne hne]
          exact hp
        · show alookup (start + k') (u.futureResolutions ++ [(start + k0.1, f o)]) = none
          rw [alookup_append_right hr]
          have : ¬ (start + k0.1 = start + k') := by omega
          simp [alookup, this]
      · intro k' hk' hmem'
        by_cases heq : ids.get ⟨k', hk'⟩ = o
        · have hkk : k' = k0.1 := by
            have : (⟨k', hk'⟩ : Fin ids.length) = k0 := getInj (by rw [heq, hk0get])
            exact congrArg Fin.val this
          show alookup (start + k') (u.futureResolutions ++ [(start + k0.1, f o)]) = _
          subst hkk
          rw [alookup_append_right hres0]
          simp only [alookup, if_pos rfl]
          exact congrArg (fun x => some (f x)) heq.symm
        · have hnotin : ids.get ⟨k', hk'⟩ ∉ o :: rest := by
            intro hmem
            rcases List.mem_cons.mp hmem with h | h
            · exact heq h
            · exact hmem' h
          show alookup (start + k') (u.futureResolutions ++ [(start + k0.1, f o)]) = _
          exact alookup_append_left (inv3 k' hk' hnotin) _

/-- If every future of the batch is resolved to the chosen reply, the awaited
`Promise.all` array is the replies in the original id order. -/
theorem collectFutures_complete (f : RequestId → JSONRPCMessage) :
    ∀ (l : List RequestId) (start : Nat) (res : List (Nat × JSONRPCMessage)),
    (∀ k (hk : k < l.length), alookup (start + k) res = some (f (l.get ⟨k, hk⟩))) →
    collectFutures start l.length res = some (l.map f) := by
  intro l
  induction l with
  | nil => intro start res _; rfl
  | cons i rest ih =>
      intro start res h
      have h0 : alookup start res = some (f i) := by
        have := h 0 (by simp)
        simpa using this
      have hrest : collectFutures (start + 1) rest.length res = some (rest.map f) := by
        refine ih (start + 1) res ?_
        intro k hk
        have := h (k + 1) (by simpa using Nat.succ_lt_succ hk)
        rw [show start + (k + 1) = start + 1 + k from by omega] at this
        exact this
      show collectFutures start (rest.length + 1) res = _
      rw [show collectFutures start (rest.length + 1) res =
        (match alookup start res, collectFutures (start + 1) rest.length res with
         | some m, some rs => some (m :: rs)
         | _, _ => none) from rfl, h0, hrest]
      rfl

/-! ### Claim C5 -/

/-- C5: in JSON-response mode, a POST batch's response body is the replies in
the order the requests appeared in the POST body, regardless of the order in
which the handler resolves them (`order` is any permutation of the request
ids); `batchShape` returns the single reply object when there is exactly one
request and the array of all replies otherwise. -/
theorem c5_json_batch_order (t : Transport) (msgs : List JSONRPCMessage)
    (f : RequestId → JSONRPCMessage) (order : List RequestId)
    (hmode : t.enableJsonResponse = true)
    (hnd : (requestIdsOf msgs).Nodup)
    (hres : ∀ p ∈ t.futureResolutions, p.1 < t.nextFuture)
    (hperm : order.Perm (requestIdsOf msgs))
    (hf : ∀ i ∈ requestIdsOf msgs,
      (isJSONRPCResponse (f i) || isJSONRPCError (f i)) = true ∧ messageId (f i) = some i) :
    jsonBatchBody (t.collectJsonResponses msgs).2.1 (t.collectJsonResponses msgs).2.2
      ((runSends (t.collectJsonResponses msgs).1 (order.map f)).futureResolutions) =
      some (batchShape ((requestIdsOf msgs).map f)) := by
  obtain ⟨tr, hdisp⟩ := dispatchAll_shape ((requestIdsOf msgs).foldl jsonRegisterStep t) msgs
  have ht1 : (t.collectJsonResponses msgs).1 =
      { (requestIdsOf msgs).foldl jsonRegisterStep t with trace := tr } := hdisp
  obtain ⟨hfr, hnf, hjm, _⟩ := jsonRegisterFold_const (requestIdsOf msgs) t
  have hmode1 : (t.collectJsonResponses msgs).1.enableJsonResponse = true := by
    rw [ht1]
    show ((requestIdsOf msgs).foldl jsonRegisterStep t).enableJsonResponse = true
    rw [hjm]; exact hmode
  have hall := runSends_invariant (requestIdsOf msgs) hnd f t.nextFuture hf order
    (hperm.nodup_iff.mpr hnd)
    (fun i hi => hperm.mem_iff.mp hi)
    (t.collectJsonResponses msgs).1 hmode1
    (by
      intro k hk _
      constructor
      · rw [ht1]
        show alookup _ ((requestIdsOf msgs).foldl jsonRegisterStep t).pendingJsonResponses = _
        exact jsonRegisterFold_lookup (requestIdsOf msgs) hnd t k hk
      · rw [ht1]
        show alookup _ ((requestIdsOf msgs).foldl jsonRegisterStep t).futureResolutions = none
        rw [hfr]
        exact alookup_none_of_keys_lt hres (Nat.le_add_right _ _))
    (by
      intro k hk hnot
      exact absurd (hperm.mem_iff.mpr (List.get_mem _ _ hk)) hnot)
  show jsonBatchBody t.nextFuture (requestIdsOf msgs).length
    ((runSends (t.collectJsonResponses msgs).1 (order.map f)).futureResolutions) = _
  unfold jsonBatchBody
  rw [collectFutures_complete f (requestIdsOf msgs) t.nextFuture _ hall]
  rfl

/-- Witness for C5: two requests resolved in reverse order still produce the
reply array in original request order. -/
theorem c5_json_batch_order_witness :
    jsonBatchBody
      ((mkTransport { enableJsonResponse := some true }).collectJsonResponses
        [JSONRPCMessage.request (RequestId.num 1) "a",
         JSONRPCMessage.request (RequestId.num 2) "b"]).2.1
      ((mkTransport { enableJsonResponse := some true }).collectJsonResponses
        [JSONRPCMessage.request (RequestId.num 1) "a",
         JSONRPCMessage.request (RequestId.num 2) "b"]).2.2
      ((runSends
        ((mkTransport { enableJsonResponse := some true }).collectJsonResponses
          [JSONRPCMessage.request (RequestId.num 1) "a",
           JSONRPCMessage.request (RequestId.num 2) "b"]).1
        ([RequestId.num 2, RequestId.num 1].map
          (fun i => JSONRPCMessage.response i "r"))).futureResolutions) =
      some (JsonBody.array
        [JSONRPCMessage.response (RequestId.num 1) "r",
         JSONRPCMessage.response (RequestId.num 2) "r"]) :=
  c5_json_batch_order (mkTransport { enableJsonResponse := some true })
    [JSONRPCMessage.request (RequestId.num 1) "a",
     JSONRPCMessage.request (RequestId.num 2) "b"]
    (fun i => JSONRPCMessage.response i "r")
    [RequestId.num 2, RequestId.num 1]
    rfl (by decide) (by intro p hp; cases hp) (by decide) (by decide)
